import Mathlib

/-!
Verification of the inference client adapter of `src/main.py`
(class `HuggingFaceChatbot`): the request-payload construction in
`query_model` and the response normalisation in `get_response`.

JSON values are modelled by the inductive type `Json`; Python numbers
(int and float alike) are modelled by rationals, which represent every
numeric literal of the program exactly.  Python exceptions relevant to
the adapter are modelled by `PyExc`, and a Python expression that may
raise is modelled in the `Except PyExc` monad.
-/

/-- A loosely typed JSON value, as produced by `response.json()` in
`query_model` (src/main.py line 113).  Python dicts are modelled as
insertion-ordered association lists with (in any run of the program)
unique keys. -/
inductive Json where
  | null : Json
  | bool : Bool → Json
  | num : ℚ → Json
  | str : String → Json
  | arr : List Json → Json
  | obj : List (String × Json) → Json

/-- The Python exceptions the adapter code can raise or catch:
`get_response` catches `KeyError, IndexError, TypeError`
(src/main.py line 138); membership tests and subscripts raise
`TypeError`, and calling `.strip()` on a non-string raises
`AttributeError`. -/
inductive PyExc where
  | typeError : PyExc
  | attributeError : PyExc
  | keyError : PyExc
  | indexError : PyExc
deriving DecidableEq, Repr

mutual

/-- Structural equality of JSON values, modelling Python `==` on the
values the adapter handles. -/
def jeq : Json → Json → Bool
  | .null, .null => true
  | .bool a, .bool b => a == b
  | .num a, .num b => a == b
  | .str a, .str b => a == b
  | .arr a, .arr b => jeqList a b
  | .obj a, .obj b => jeqObj a b
  | _, _ => false

/-- Elementwise `jeq` on lists of JSON values. -/
def jeqList : List Json → List Json → Bool
  | [], [] => true
  | x :: xs, y :: ys => jeq x y && jeqList xs ys
  | _, _ => false

/-- Pairwise `jeq` on key-value lists. -/
def jeqObj : List (String × Json) → List (String × Json) → Bool
  | [], [] => true
  | (k, v) :: xs, (l, w) :: ys => k == l && jeq v w && jeqObj xs ys
  | _, _ => false

end

/-- First-match lookup in a key-value list: Python `d[k]` / `k in d`
on a dict, whose keys are unique. -/
def lookupKV : List (String × Json) → String → Option Json
  | [], _ => none
  | (k, v) :: rest, key => if k = key then some v else lookupKV rest key

/-- Python `d[k] = v` on a dict: replace the value in place when the
key is present, append the pair otherwise. -/
def setKV : List (String × Json) → String → Json → List (String × Json)
  | [], k, v => [(k, v)]
  | (k0, v0) :: rest, k, v =>
      if k0 = k then (k, v) :: rest else (k0, v0) :: setKV rest k v

/-- Python `d.update(u)`: assign every pair of `u` into `d`, in order
(src/main.py lines 95 and 103). -/
def dictUpdate (d : List (String × Json)) (u : List (String × Json)) :
    List (String × Json) :=
  u.foldl (fun acc kv => setKV acc kv.1 kv.2) d

/-- Decides whether the character list `n` is a prefix of `h`. -/
def prefAt : List Char → List Char → Bool
  | [], _ => true
  | _ :: _, [] => false
  | a :: as, b :: bs => a == b && prefAt as bs

/-- Decides whether the character list `n` occurs contiguously inside
`h`. -/
def subAt : List Char → List Char → Bool
  | n, [] => n.isEmpty
  | n, c :: t => prefAt n (c :: t) || subAt n t

/-- Python substring membership `n in h` on strings. -/
def strContains (h n : String) : Bool := subAt n.data h.data

/-- ASCII lowercasing of one character, as Python `.lower()` acts on
the ASCII model names this program handles. -/
def lowerChar (c : Char) : Char :=
  if 65 ≤ c.toNat && c.toNat ≤ 90 then Char.ofNat (c.toNat + 32) else c

/-- Python `s.lower()` on the ASCII strings this program handles
(src/main.py line 94). -/
def pyLower (s : String) : String := String.mk (s.data.map lowerChar)

/-- Python whitespace as recognised by `str.strip()`, restricted to
the ASCII whitespace characters. -/
def isSpaceChar (c : Char) : Bool :=
  c == ' ' || c == '\t' || c == '\n' || c == '\r' || c == '\x0b' || c == '\x0c'

/-- Drops leading whitespace characters. -/
def dropSpaces : List Char → List Char
  | [] => []
  | c :: t => if isSpaceChar c then dropSpaces t else c :: t

/-- Python `s.strip()`: removes leading and trailing whitespace. -/
def pyTrim (s : String) : String :=
  String.mk (dropSpaces (dropSpaces s.data.reverse).reverse)

/-- Joins a list of strings with a separator, as Python
`sep.join(...)` used by `repr` of containers. -/
def joinWith (sep : String) : List String → String
  | [] => ""
  | [x] => x
  | x :: y :: rest => x ++ sep ++ joinWith sep (y :: rest)

/-- Rendering of a number by Python `str`/`repr`.  Every number this
program ever renders is an integer; a non-integral rational is shown
as numerator/denominator. -/
def renderNum (q : ℚ) : String :=
  if q.den = 1 then toString q.num
  else toString q.num ++ "/" ++ toString q.den

mutual

/-- Python `repr` of a JSON value, as used by `str` on containers
(the `str(result)` fallback of src/main.py line 137). -/
def pyRepr : Json → String
  | .null => "None"
  | .bool true => "True"
  | .bool false => "False"
  | .num q => renderNum q
  | .str s => "\x27" ++ s ++ "\x27"
  | .arr xs => "[" ++ joinWith ", " (pyReprList xs) ++ "]"
  | .obj kvs => "\x7b" ++ joinWith ", " (pyReprObj kvs) ++ "\x7d"

/-- `repr` of the elements of a JSON array. -/
def pyReprList : List Json → List String
  | [] => []
  | x :: xs => pyRepr x :: pyReprList xs

/-- `repr` of the entries of a JSON object. -/
def pyReprObj : List (String × Json) → List String
  | [] => []
  | (k, v) :: kvs => ("\x27" ++ k ++ "\x27: " ++ pyRepr v) :: pyReprObj kvs

end

/-- Python `str` of a JSON value: a string renders as itself (as in
the f-string of src/main.py line 122), anything else as its `repr`. -/
def pyStr : Json → String
  | .str s => s
  | j => pyRepr j

/-- Python membership `needle in j`: key lookup on a dict, element
equality on a list, substring test on a string, `TypeError` otherwise
(src/main.py lines 121, 127, 129, 132, 134). -/
def pyIn (needle : String) : Json → Except PyExc Bool
  | .obj kvs => .ok (lookupKV kvs needle).isSome
  | .arr xs => .ok (xs.any (fun x => jeq x (.str needle)))
  | .str s => .ok (strContains s needle)
  | _ => .error .typeError

/-- Python subscript `j[key]` with a string key: dict lookup
(`KeyError` when absent), `TypeError` on any other value. -/
def pySub (j : Json) (key : String) : Except PyExc Json :=
  match j with
  | .obj kvs =>
      match lookupKV kvs key with
      | some v => .ok v
      | none => .error .keyError
  | _ => .error .typeError

/-- Python subscript `j[i]` with an integer index on a list
(`IndexError` out of range), `TypeError` on a non-sequence. -/
def pyIndex (j : Json) (i : Nat) : Except PyExc Json :=
  match j with
  | .arr xs =>
      match xs.get? i with
      | some v => .ok v
      | none => .error .indexError
  | .str s =>
      match (s.data.get? i) with
      | some c => .ok (.str (String.mk [c]))
      | none => .error .indexError
  | _ => .error .typeError

/-- Python `v.strip()`: trims surrounding whitespace of a string,
raises `AttributeError` on a non-string value
(src/main.py lines 128, 130, 133, 135). -/
def pyStrip : Json → Except PyExc String
  | .str s => .ok (pyTrim s)
  | _ => .error .attributeError

/-- The base default generation parameters of `query_model`
(src/main.py lines 85 to 91). -/
def default_params : List (String × Json) :=
  [("max_new_tokens", Json.num 150),
   ("temperature", Json.num 0.7),
   ("top_p", Json.num 0.9),
   ("do_sample", Json.bool true),
   ("return_full_text", Json.bool false)]

/-- The Qwen-specific update dict of `query_model`
(src/main.py lines 95 to 100). -/
def qwen_params : List (String × Json) :=
  [("max_new_tokens", Json.num 200),
   ("temperature", Json.num 0.8),
   ("top_p", Json.num 0.95),
   ("repetition_penalty", Json.num 1.1)]

/-- The parameter dict `query_model` sends: the base defaults, updated
by the Qwen dict when the lowercased model name contains "qwen", then
updated by the caller-supplied `parameters` when that argument is
truthy, which for Python means present and non-empty
(src/main.py lines 84 to 103). -/
def query_params (model_name : String)
    (parameters : Option (List (String × Json))) : List (String × Json) :=
  let d := default_params
  let d := if strContains (pyLower model_name) "qwen" then dictUpdate d qwen_params
           else d
  match parameters with
  | some ps => if ps.isEmpty then d else dictUpdate d ps
  | none => d

/-- The payload construction of `query_model` (src/main.py lines 105
to 108): the prompt used as `inputs` paired with the request body.
The first component is the formatted prompt actually sent; the source
passes the caller text through with no template applied. -/
def buildPayload (model_name : String) (prompt : String)
    (parameters : Option (List (String × Json))) : String × Json :=
  (prompt,
   Json.obj [("inputs", Json.str prompt),
             ("parameters", Json.obj (query_params model_name parameters))])

/-- The body of the `try` block of `get_response` (src/main.py lines
126 to 137): shape sniffing of the reply, with the plain
`str(result)` rendering as the fall-through. -/
def tryBody (result : Json) : Except PyExc String := do
  match result with
  | .arr xs =>
      if xs.length > 0 then
        let first ← pyIndex result 0
        let hasGen ← pyIn "generated_text" first
        if hasGen then
          let v ← pySub first "generated_text"
          pyStrip v
        else
          let hasTxt ← pyIn "text" first
          if hasTxt then
            let v ← pySub first "text"
            pyStrip v
          else
            .ok (pyStr result)
      else
        .ok (pyStr result)
  | .obj kvs =>
      let hasGen := (lookupKV kvs "generated_text").isSome
      if hasGen then
        let v ← pySub result "generated_text"
        pyStrip v
      else
        let hasTxt := (lookupKV kvs "text").isSome
        if hasTxt then
          let v ← pySub result "text"
          pyStrip v
        else
          .ok (pyStr result)
  | _ => .ok (pyStr result)

/-- The response normalisation of `HuggingFaceChatbot.get_response`
(src/main.py lines 117 to 139), applied to the value `result`
returned by `query_model` (the parsed JSON reply, or the tagged
`\x7b"error": ...\x7d` dict that `query_model` substitutes for any
`RequestException`).  The `prompt` argument is in scope in the source
but never read during normalisation.  The error-membership test and
the f-string subscript run outside the `try`, and `except` catches
exactly `KeyError, IndexError, TypeError`. -/
def get_response (prompt : String) (result : Json) : Except PyExc String := do
  let hasErr ← pyIn "error" result
  if hasErr then
    let v ← pySub result "error"
    return ("Error: " ++ pyStr v)
  else
    match tryBody result with
    | .ok s => .ok s
    | .error e =>
        if e = .keyError || e = .indexError || e = .typeError then
          .ok "Sorry, I couldn\x27t process the response properly."
        else
          .error e

/-- Recognises a string-valued JSON leaf. -/
def isStrVal : Json → Bool
  | .str _ => true
  | _ => false

/-- Every value of the key-value list is a string, as in any reply of
the upstream text-generation API. -/
def strValues : List (String × Json) → Bool
  | [] => true
  | (_, v) :: rest => isStrVal v && strValues rest

/-- A mapping whose values are all strings. -/
def isObjStr : Json → Bool
  | .obj kvs => strValues kvs
  | _ => false

/-- The reply shapes under which the normalisation is raise-free: a
mapping with string values, or a sequence of such mappings. -/
def safeShape : Json → Bool
  | .obj kvs => strValues kvs
  | .arr xs => xs.all isObjStr
  | _ => false

/-- C4: the claim states that a model id matching an instruct/chat
family (the concrete Qwen instruct model below) gets its user text
wrapped in a turn template with non-empty start markers.  The payload
built by the source sends the user text itself, so no non-empty
wrapper exists around it. -/
theorem claim4_counterexample :
    ¬ ∃ p s : String, 0 < p.length ∧
      (buildPayload "Qwen/Qwen2-0.5B-Instruct" "hi" none).1 = p ++ "hi" ++ s := by
  rintro ⟨p, s, hp, he⟩
  have h1 : (buildPayload "Qwen/Qwen2-0.5B-Instruct" "hi" none).1 = "hi" := rfl
  rw [h1] at he
  have h2 := congrArg String.length he
  rw [String.length_append, String.length_append] at h2
  have h3 : ("hi" : String).length = 2 := rfl
  omega

/-- C4 amended: for every model id, user text and parameter dict, the
prompt placed in the payload (and sent as `inputs`) is the user text
unmodified; `query_model` applies no family template to the prompt. -/
theorem claim4_amended (model_name prompt : String)
    (parameters : Option (List (String × Json))) :
    (buildPayload model_name prompt parameters).1 = prompt ∧
    lookupKV [("inputs", Json.str prompt),
        ("parameters", Json.obj (query_params model_name parameters))] "inputs"
      = some (Json.str prompt) := ⟨rfl, rfl⟩

/-- C8: the payload construction is a pure function of its inputs;
two calls with identical arguments produce identical output. -/
theorem claim8_pure (model_name prompt : String)
    (parameters : Option (List (String × Json))) :
    buildPayload model_name prompt parameters
      = buildPayload model_name prompt parameters := rfl

/-- C10: for a model whose lowercased name does not contain "qwen"
and no caller-supplied parameters, the request body is exactly the
prompt as `inputs` together with the base default parameter dict. -/
theorem claim10_base_defaults (model_name prompt : String)
    (h : strContains (pyLower model_name) "qwen" = false) :
    buildPayload model_name prompt none
      = (prompt,
         Json.obj [("inputs", Json.str prompt),
                   ("parameters",
                    Json.obj [("max_new_tokens", Json.num 150),
                              ("temperature", Json.num 0.7),
                              ("top_p", Json.num 0.9),
                              ("do_sample", Json.bool true),
                              ("return_full_text", Json.bool false)])]) := by
  simp only [buildPayload, query_params, h, Bool.false_eq_true, if_false]
  rfl

/-- C10 witness: the model "gpt2" does not match the Qwen family and
receives exactly the base defaults. -/
theorem claim10_witness :
    strContains (pyLower "gpt2") "qwen" = false ∧
    buildPayload "gpt2" "hi" none
      = ("hi",
         Json.obj [("inputs", Json.str "hi"),
                   ("parameters",
                    Json.obj [("max_new_tokens", Json.num 150),
                              ("temperature", Json.num 0.7),
                              ("top_p", Json.num 0.9),
                              ("do_sample", Json.bool true),
                              ("return_full_text", Json.bool false)])]) :=
  ⟨by decide, claim10_base_defaults "gpt2" "hi" (by decide)⟩

/-- C5: the claim states that for a Qwen-family model the selected
defaults contain no key carried over from the base default set.  The
source merges with `dict.update`, so the base-only key `do_sample`
is still present (with its base value) in the selected defaults. -/
theorem claim5_counterexample :
    lookupKV (query_params "Qwen/Qwen2-0.5B-Instruct" none) "do_sample"
      = some (Json.bool true) := by
  have h : strContains (pyLower "Qwen/Qwen2-0.5B-Instruct") "qwen" = true := by
    decide
  simp only [query_params, h, if_true]
  rfl

/-- C5 amended: for every model whose lowercased name contains
"qwen", the selected defaults are the base defaults updated in place
by the Qwen dict: the overlapping keys take the Qwen values, the
base-only keys `do_sample` and `return_full_text` are carried over,
and `repetition_penalty` is appended. -/
theorem claim5_amended (model_name : String)
    (h : strContains (pyLower model_name) "qwen" = true) :
    query_params model_name none
      = [("max_new_tokens", Json.num 200),
         ("temperature", Json.num 0.8),
         ("top_p", Json.num 0.95),
         ("do_sample", Json.bool true),
         ("return_full_text", Json.bool false),
         ("repetition_penalty", Json.num 1.1)] := by
  simp only [query_params, h, if_true]
  rfl

/-- C5 witness: the model "Qwen/Qwen2-0.5B-Instruct" matches the
family and selects the merged dict. -/
theorem claim5_witness :
    strContains (pyLower "Qwen/Qwen2-0.5B-Instruct") "qwen" = true ∧
    query_params "Qwen/Qwen2-0.5B-Instruct" none
      = [("max_new_tokens", Json.num 200),
         ("temperature", Json.num 0.8),
         ("top_p", Json.num 0.95),
         ("do_sample", Json.bool true),
         ("return_full_text", Json.bool false),
         ("repetition_penalty", Json.num 1.1)] :=
  ⟨by decide, claim5_amended "Qwen/Qwen2-0.5B-Instruct" (by decide)⟩

/-- C2: the claim states that a tagged error whose description
contains "loading" yields a distinct warming-up outcome rather than
the generic error outcome.  The source has no such branch: the
loading description is returned through the one generic error path,
prefixed with "Error: " and carrying the description verbatim. -/
theorem claim2_counterexample :
    strContains (pyLower "Model XYZ is currently loading") "loading" = true ∧
    get_response "" (Json.obj [("error", Json.str "Model XYZ is currently loading")])
      = Except.ok ("Error: " ++ "Model XYZ is currently loading") :=
  ⟨by decide, rfl⟩

/-- C2 amended: every tagged error result is returned through the
single generic error path, as "Error: " followed by the description;
there is no separate treatment of descriptions containing "loading".
In particular the loading example yields the generic outcome. -/
theorem claim2_amended (prompt desc : String) :
    get_response prompt (Json.obj [("error", Json.str desc)])
      = Except.ok ("Error: " ++ desc) := rfl

/-- C3: the claim states that a mapping with neither `generated_text`
nor `text` yields the fixed could-not-parse fallback.  The source
falls through to `str(result)` instead: the concrete input renders as
its Python string form, which differs from the fallback message. -/
theorem claim3_counterexample :
    get_response "" (Json.obj [("unexpected", Json.num 42)])
      = Except.ok "\x7b\x27unexpected\x27: 42\x7d" ∧
    "\x7b\x27unexpected\x27: 42\x7d"
      ≠ "Sorry, I couldn\x27t process the response properly." :=
  ⟨rfl, by decide⟩

/-- C3 amended: for every mapping containing none of the keys
`error`, `generated_text` and `text`, the normalisation returns the
Python string rendering of the whole mapping and does not raise; the
fixed fallback is reserved for a caught KeyError, IndexError or
TypeError. -/
theorem claim3_amended (prompt : String) (kvs : List (String × Json))
    (h1 : lookupKV kvs "error" = none)
    (h2 : lookupKV kvs "generated_text" = none)
    (h3 : lookupKV kvs "text" = none) :
    get_response prompt (Json.obj kvs) = Except.ok (pyStr (Json.obj kvs)) := by
  simp [get_response, pyIn, tryBody, pySub, h1, h2, h3, Bind.bind, Except.bind]

/-- C3 witness: the amended statement applied to the concrete mapping
of the claim. -/
theorem claim3_witness :
    lookupKV [("unexpected", Json.num 42)] "error" = none ∧
    lookupKV [("unexpected", Json.num 42)] "generated_text" = none ∧
    lookupKV [("unexpected", Json.num 42)] "text" = none ∧
    get_response "" (Json.obj [("unexpected", Json.num 42)])
      = Except.ok (pyStr (Json.obj [("unexpected", Json.num 42)])) :=
  ⟨rfl, rfl, rfl, claim3_amended "" _ rfl rfl rfl⟩

/-- C7: the claim states that a candidate text containing the
formatted prompt has the first occurrence of the prompt stripped
before being returned.  The source never removes the prompt: on the
claim input the echoed prompt stays in the returned text, which
therefore differs from the stripped text the claim expects. -/
theorem claim7_counterexample :
    get_response "Hello: "
        (Json.arr [Json.obj [("generated_text", Json.str "Hello: Hi there")]])
      = Except.ok "Hello: Hi there" ∧
    "Hello: Hi there" ≠ "Hi there" :=
  ⟨rfl, by decide⟩

/-- C7 amended: for every successful reply that yields a candidate
text, under each of the four extraction paths of the source (a
sequence whose first element is a mapping carrying `generated_text`,
or failing that `text`; or such a mapping itself), the normalisation
returns the candidate with surrounding whitespace trimmed and
performs no prompt stripping, even when the candidate contains the
prompt.  The sequence cases assume the sequence does not contain the
literal string "error" (the membership test of src/main.py line 121)
and the mapping cases assume no `error` key, so the error branch is
not taken. -/
theorem claim7_amended (prompt : String) :
    (∀ (kvs : List (String × Json)) (rest : List Json) (s : String),
       ((Json.obj kvs :: rest).any (fun x => jeq x (Json.str "error"))) = false →
       lookupKV kvs "generated_text" = some (Json.str s) →
       get_response prompt (Json.arr (Json.obj kvs :: rest))
         = Except.ok (pyTrim s)) ∧
    (∀ (kvs : List (String × Json)) (rest : List Json) (s : String),
       ((Json.obj kvs :: rest).any (fun x => jeq x (Json.str "error"))) = false →
       lookupKV kvs "generated_text" = none →
       lookupKV kvs "text" = some (Json.str s) →
       get_response prompt (Json.arr (Json.obj kvs :: rest))
         = Except.ok (pyTrim s)) ∧
    (∀ (kvs : List (String × Json)) (s : String),
       lookupKV kvs "error" = none →
       lookupKV kvs "generated_text" = some (Json.str s) →
       get_response prompt (Json.obj kvs) = Except.ok (pyTrim s)) ∧
    (∀ (kvs : List (String × Json)) (s : String),
       lookupKV kvs "error" = none →
       lookupKV kvs "generated_text" = none →
       lookupKV kvs "text" = some (Json.str s) →
       get_response prompt (Json.obj kvs) = Except.ok (pyTrim s)) := by
  refine ⟨?_, ?_, ?_, ?_⟩
  · intro kvs rest s herr hg
    simp [get_response, pyIn, herr, tryBody, pyIndex, hg, pySub, pyStrip,
          Bind.bind, Except.bind]
  · intro kvs rest s herr hg ht
    simp [get_response, pyIn, herr, tryBody, pyIndex, hg, ht, pySub, pyStrip,
          Bind.bind, Except.bind]
  · intro kvs s herr hg
    simp [get_response, pyIn, herr, tryBody, hg, pySub, pyStrip,
          Bind.bind, Except.bind]
  · intro kvs s herr hg ht
    simp [get_response, pyIn, herr, tryBody, hg, ht, pySub, pyStrip,
          Bind.bind, Except.bind]

/-- C7 witness: the amended statement applied to the claim input; the
echoed prompt stays in the returned candidate. -/
theorem claim7_witness :
    ((Json.obj [("generated_text", Json.str "Hello: Hi there")]
        :: ([] : List Json)).any (fun x => jeq x (Json.str "error"))) = false ∧
    lookupKV [("generated_text", Json.str "Hello: Hi there")] "generated_text"
      = some (Json.str "Hello: Hi there") ∧
    get_response "Hello: "
        (Json.arr [Json.obj [("generated_text", Json.str "Hello: Hi there")]])
      = Except.ok (pyTrim "Hello: Hi there") :=
  ⟨rfl, rfl,
   (claim7_amended "Hello: ").1
     [("generated_text", Json.str "Hello: Hi there")] [] "Hello: Hi there"
     rfl rfl⟩

/-- C9: for every mapping result that contains the key `error`, the
normalisation returns "Error: " followed by the string form of that
value, regardless of any `generated_text` or `text` entry also
present: the error branch precedes text extraction. -/
theorem claim9_error_precedence (prompt : String)
    (kvs : List (String × Json)) (v : Json)
    (h : lookupKV kvs "error" = some v) :
    get_response prompt (Json.obj kvs) = Except.ok ("Error: " ++ pyStr v) := by
  simp [get_response, pyIn, pySub, h, Bind.bind, Except.bind, pure, Except.pure]

/-- C9 witness: a mapping holding both an `error` entry and a
`generated_text` entry takes the error branch. -/
theorem claim9_witness :
    lookupKV [("error", Json.str "boom"), ("generated_text", Json.str "hidden")]
        "error" = some (Json.str "boom") ∧
    get_response ""
        (Json.obj [("error", Json.str "boom"),
                   ("generated_text", Json.str "hidden")])
      = Except.ok ("Error: " ++ pyStr (Json.str "boom")) :=
  ⟨rfl, claim9_error_precedence "" _ (Json.str "boom") rfl⟩

/-- Looking up the key just assigned finds the assigned value. -/
theorem lookup_setKV_self (d : List (String × Json)) (k : String) (v : Json) :
    lookupKV (setKV d k v) k = some v := by
  induction d with
  | nil => simp [setKV, lookupKV]
  | cons a rest ih =>
      obtain ⟨k0, v0⟩ := a
      by_cases h : k0 = k
      · subst h
        simp [setKV, lookupKV]
      · simp [setKV, h, lookupKV, ih]

/-- Assigning one key leaves the lookup of any other key unchanged. -/
theorem lookup_setKV_ne (d : List (String × Json)) (k k2 : String) (v : Json)
    (h : k2 ≠ k) : lookupKV (setKV d k v) k2 = lookupKV d k2 := by
  have h2 : k ≠ k2 := fun x => h x.symm
  induction d with
  | nil => simp [setKV, lookupKV, h2]
  | cons a rest ih =>
      obtain ⟨k0, v0⟩ := a
      by_cases h0 : k0 = k
      · subst h0
        simp [setKV, lookupKV, h2]
      · simp [setKV, h0, lookupKV, ih]

/-- A key absent from the update dict keeps its pre-update value. -/
theorem lookup_dictUpdate_none :
    ∀ (u d : List (String × Json)) (k : String),
      lookupKV u k = none → lookupKV (dictUpdate d u) k = lookupKV d k := by
  intro u
  induction u with
  | nil => intro d k _; rfl
  | cons a rest ih =>
      intro d k h
      obtain ⟨k1, v1⟩ := a
      by_cases e : k1 = k
      · simp [lookupKV, e] at h
      · simp only [lookupKV, e, if_false] at h
        have step : dictUpdate d ((k1, v1) :: rest)
            = dictUpdate (setKV d k1 v1) rest := rfl
        rw [step, ih (setKV d k1 v1) k h]
        exact lookup_setKV_ne d k1 k v1 (fun x => e x.symm)

/-- A key absent from a key-value list looks up to nothing. -/
theorem lookup_of_not_mem_keys (u : List (String × Json)) (k : String)
    (h : k ∉ u.map Prod.fst) : lookupKV u k = none := by
  induction u with
  | nil => rfl
  | cons a rest ih =>
      obtain ⟨k1, v1⟩ := a
      simp only [List.map_cons, List.mem_cons] at h
      push_neg at h
      have e : k1 ≠ k := fun x => h.1 x.symm
      simp [lookupKV, e, ih h.2]

/-- A key present in a duplicate-free update dict looks up to its
update value after the update. -/
theorem lookup_dictUpdate_some :
    ∀ (u d : List (String × Json)) (k : String) (v : Json),
      (u.map Prod.fst).Nodup → lookupKV u k = some v →
      lookupKV (dictUpdate d u) k = some v := by
  intro u
  induction u with
  | nil => intro d k v _ h; simp [lookupKV] at h
  | cons a rest ih =>
      intro d k v hnd h
      obtain ⟨k1, v1⟩ := a
      simp only [List.map_cons, List.nodup_cons] at hnd
      have step : dictUpdate d ((k1, v1) :: rest)
          = dictUpdate (setKV d k1 v1) rest := rfl
      rw [step]
      by_cases e : k1 = k
      · subst e
        have hv : v1 = v := by simpa [lookupKV] using h
        have hrest : lookupKV rest k1 = none :=
          lookup_of_not_mem_keys rest k1 hnd.1
        rw [lookup_dictUpdate_none rest (setKV d k1 v1) k1 hrest,
            lookup_setKV_self, hv]
      · have h2 : lookupKV rest k = some v := by simpa [lookupKV, e] using h
        exact ih (setKV d k1 v1) k v hnd.2 h2

/-- C6: for every model, every duplicate-free caller dict and every
key, the parameter dict placed in the request body maps each key
present in the caller dict to the caller value, and each key absent
from the caller dict to its value in the selected defaults. -/
theorem claim6_override_precedence (model_name : String)
    (ps : List (String × Json)) (k : String)
    (hnd : (ps.map Prod.fst).Nodup) :
    (∀ v, lookupKV ps k = some v →
       lookupKV (query_params model_name (some ps)) k = some v) ∧
    (lookupKV ps k = none →
       lookupKV (query_params model_name (some ps)) k
         = lookupKV (query_params model_name none) k) := by
  cases ps with
  | nil =>
      constructor
      · intro v hv
        simp [lookupKV] at hv
      · intro _
        simp [query_params]
  | cons a rest =>
      constructor
      · intro v hv
        simp only [query_params, List.isEmpty_cons, if_false, Bool.false_eq_true]
        exact lookup_dictUpdate_some (a :: rest) _ k v hnd hv
      · intro hnone
        simp only [query_params, List.isEmpty_cons, if_false, Bool.false_eq_true]
        exact lookup_dictUpdate_none (a :: rest) _ k hnone

/-- C6 witness: a caller temperature of 1.5 overrides the Qwen family
default of 0.8 in the merged dict. -/
theorem claim6_witness :
    (([("temperature", Json.num 1.5)]).map
        (Prod.fst : String × Json → String)).Nodup ∧
    lookupKV (query_params "Qwen/Qwen2-0.5B-Instruct"
        (some [("temperature", Json.num 1.5)])) "temperature"
      = some (Json.num 1.5) :=
  ⟨by decide,
   (claim6_override_precedence "Qwen/Qwen2-0.5B-Instruct"
      [("temperature", Json.num 1.5)] "temperature" (by decide)).1
     (Json.num 1.5) rfl⟩

/-- In a string-valued key-value list every successful lookup yields
a string. -/
theorem strValues_lookup :
    ∀ (kvs : List (String × Json)) (k : String) (v : Json),
      strValues kvs = true → lookupKV kvs k = some v →
      ∃ t, v = Json.str t := by
  intro kvs
  induction kvs with
  | nil => intro k v _ h; simp [lookupKV] at h
  | cons a rest ih =>
      intro k v hs h
      obtain ⟨k0, v0⟩ := a
      simp only [strValues, Bool.and_eq_true] at hs
      by_cases e : k0 = k
      · have hv : v0 = v := by simpa [lookupKV, e] using h
        subst hv
        cases v0 with
        | str t => exact ⟨t, rfl⟩
        | null => simp [isStrVal] at hs
        | bool b => simp [isStrVal] at hs
        | num q => simp [isStrVal] at hs
        | arr xs => simp [isStrVal] at hs
        | obj o => simp [isStrVal] at hs
      · have h2 : lookupKV rest k = some v := by simpa [lookupKV, e] using h
        exact ih k v hs.2 h2

/-- The try-block body never fails on a string-valued mapping. -/
theorem tryBody_obj_ok (kvs : List (String × Json))
    (hs : strValues kvs = true) : ∃ s, tryBody (Json.obj kvs) = Except.ok s := by
  cases hg : lookupKV kvs "generated_text" with
  | some v =>
      obtain ⟨t, rfl⟩ := strValues_lookup kvs "generated_text" v hs hg
      exact ⟨pyTrim t,
        by simp [tryBody, hg, pySub, pyStrip, Bind.bind, Except.bind]⟩
  | none =>
      cases ht : lookupKV kvs "text" with
      | some v =>
          obtain ⟨t, rfl⟩ := strValues_lookup kvs "text" v hs ht
          exact ⟨pyTrim t,
            by simp [tryBody, hg, ht, pySub, pyStrip, Bind.bind, Except.bind]⟩
      | none =>
          exact ⟨pyStr (Json.obj kvs), by simp [tryBody, hg, ht]⟩

/-- A list of mappings never contains a string element, so a string
membership test on it is false. -/
theorem all_obj_no_str (xs : List Json) (needle : String)
    (h : xs.all isObjStr = true) :
    xs.any (fun x => jeq x (Json.str needle)) = false := by
  induction xs with
  | nil => rfl
  | cons x rest ih =>
      simp only [List.all_cons, Bool.and_eq_true] at h
      have hx : jeq x (Json.str needle) = false := by
        cases x with
        | obj kvs => rfl
        | null => simp [isObjStr] at h
        | bool b => simp [isObjStr] at h
        | num q => simp [isObjStr] at h
        | str t => simp [isObjStr] at h
        | arr ys => simp [isObjStr] at h
      simp [List.any_cons, hx, ih h.2]

/-- The try-block body never fails on a sequence of string-valued
mappings. -/
theorem tryBody_arr_ok (xs : List Json)
    (h : xs.all isObjStr = true) : ∃ s, tryBody (Json.arr xs) = Except.ok s := by
  cases xs with
  | nil => exact ⟨pyStr (Json.arr []), rfl⟩
  | cons x rest =>
      simp only [List.all_cons, Bool.and_eq_true] at h
      cases x with
      | null => simp [isObjStr] at h
      | bool b => simp [isObjStr] at h
      | num q => simp [isObjStr] at h
      | str t => simp [isObjStr] at h
      | arr ys => simp [isObjStr] at h
      | obj kvs =>
          have hs : strValues kvs = true := by simpa [isObjStr] using h.1
          cases hg : lookupKV kvs "generated_text" with
          | some v =>
              obtain ⟨t, rfl⟩ := strValues_lookup kvs "generated_text" v hs hg
              exact ⟨pyTrim t,
                by simp [tryBody, pyIndex, pyIn, hg, pySub, pyStrip,
                         Bind.bind, Except.bind]⟩
          | none =>
              cases ht : lookupKV kvs "text" with
              | some v =>
                  obtain ⟨t, rfl⟩ := strValues_lookup kvs "text" v hs ht
                  exact ⟨pyTrim t,
                    by simp [tryBody, pyIndex, pyIn, hg, ht, pySub, pyStrip,
                             Bind.bind, Except.bind]⟩
              | none =>
                  exact ⟨pyStr (Json.arr (Json.obj kvs :: rest)),
                    by simp [tryBody, pyIndex, pyIn, hg, ht,
                             Bind.bind, Except.bind]⟩

/-- C1: the claim states that the normalisation never raises on any
JSON shape, numbers included.  A toplevel JSON number reaches the
membership test `"error" in result` outside the try-block, which
raises TypeError on a number, so the call raises instead of
returning an outcome. -/
theorem claim1_counterexample :
    get_response "" (Json.num 42) = Except.error PyExc.typeError ∧
    ¬ ∃ s, get_response "" (Json.num 42) = Except.ok s := by
  refine ⟨rfl, ?_⟩
  rintro ⟨s, hs⟩
  rw [show get_response "" (Json.num 42) = Except.error PyExc.typeError
      from rfl] at hs
  exact Except.noConfusion hs

/-- C1 amended: the normalisation never raises and returns a
string-bearing outcome whenever the reply is a mapping with string
values (the tagged transport-error dict included) or a sequence of
such mappings; a toplevel number, boolean or null makes the error
membership test raise TypeError. -/
theorem claim1_amended (prompt : String) (j : Json)
    (h : safeShape j = true) : ∃ s, get_response prompt j = Except.ok s := by
  cases j with
  | null => simp [safeShape] at h
  | bool b => simp [safeShape] at h
  | num q => simp [safeShape] at h
  | str t => simp [safeShape] at h
  | obj kvs =>
      have hs : strValues kvs = true := h
      cases he : lookupKV kvs "error" with
      | some v =>
          obtain ⟨t, rfl⟩ := strValues_lookup kvs "error" v hs he
          exact ⟨"Error: " ++ t,
            by simp [get_response, pyIn, he, pySub, pyStr,
                     Bind.bind, Except.bind, pure, Except.pure]⟩
      | none =>
          obtain ⟨s, hsb⟩ := tryBody_obj_ok kvs hs
          exact ⟨s, by simp [get_response, pyIn, he, hsb,
                             Bind.bind, Except.bind]⟩
  | arr xs =>
      have hx : xs.all isObjStr = true := h
      have hfalse := all_obj_no_str xs "error" hx
      obtain ⟨s, hsb⟩ := tryBody_arr_ok xs hx
      exact ⟨s, by simp [get_response, pyIn, hfalse, hsb,
                         Bind.bind, Except.bind]⟩

/-- C1 witness: the tagged transport-error dict is a string-valued
mapping, and the normalisation returns an outcome on it. -/
theorem claim1_witness :
    safeShape (Json.obj [("error", Json.str "boom")]) = true ∧
    ∃ s, get_response "" (Json.obj [("error", Json.str "boom")])
        = Except.ok s :=
  ⟨rfl, claim1_amended "" (Json.obj [("error", Json.str "boom")]) rfl⟩
